import Mathlib

/-!
Shallow embedding of the core of the `rapidapi-openwebninja-mcp` repository:
the sliding-window rate limiter (`src/utils/rateLimiter.ts`), the parameter
validation and sanitization pipeline (`src/utils/validation.ts`), the search
orchestration of `OpenWebNinjaService` (`search`/`advancedSearch`/`bulkSearch`)
and the three tool handlers (`WebSearchHandler`, `AdvancedSearchHandler`,
`BulkSearchHandler`).

JavaScript strings are modelled as Lean `String` (a list of characters);
JavaScript numbers that reach the validators are modelled as either an
integer (`RawValue.vInt`) or a marked non-integer number (`RawValue.vNonIntNum`),
which is all `typeof x === 'number' && Number.isInteger(x)` can observe.
`Date.now()` is passed in explicitly as an integer `now` parameter, and the
external HTTP provider is passed in as an oracle function `searchFn`.
-/

/-! ## JavaScript string primitives -/

/-- The whitespace class of JavaScript's `\s` / `String.prototype.trim`
(ASCII whitespace plus NBSP; exotic Unicode space characters are not
modelled since no validation rule distinguishes them). -/
def jsWhitespace (c : Char) : Bool :=
  c = ' ' || c = '\t' || c = '\n' || c = '\r' || c = '\x0b' || c = '\x0c' || c = ' '

/-- Strip leading and trailing whitespace from a character list
(JS `String.prototype.trim`). -/
def jsTrimList (l : List Char) : List Char :=
  ((l.dropWhile jsWhitespace).reverse.dropWhile jsWhitespace).reverse

/-- JS `String.prototype.trim`. -/
def jsTrim (s : String) : String :=
  ⟨jsTrimList s.data⟩

/-- Lowercase a single character (JS `String.prototype.toLowerCase`,
restricted to the ASCII range that the validators' inputs use). -/
def jsToLowerChar (c : Char) : Char :=
  if 'A' ≤ c ∧ c ≤ 'Z' then Char.ofNat (c.toNat + 32) else c

/-- JS `String.prototype.toLowerCase`. -/
def jsToLower (s : String) : String :=
  ⟨s.data.map jsToLowerChar⟩

/-! ## Rate limiter (`src/utils/rateLimiter.ts`, class `RateLimiter`) -/

/-- The `RateLimiter` instance state: `requests` is the stored timestamp
array, `maxRequests`/`windowMs` the constructor arguments
(defaults `100` and `60000`). -/
structure RateLimiter where
  requests : List Int
  maxRequests : Nat
  windowMs : Int
  deriving Repr, DecidableEq

/-- The pruning pass shared by `canMakeRequest` and `getCurrentCount`:
`this.requests = this.requests.filter(time => now - time < this.windowMs)`. -/
def pruneRequests (rl : RateLimiter) (now : Int) : List Int :=
  rl.requests.filter (fun time => now - time < rl.windowMs)

/-- `RateLimiter.canMakeRequest()`: prunes the stored timestamps, then
returns `this.requests.length < this.maxRequests`.  The mutated state is
returned alongside the boolean. -/
def canMakeRequest (rl : RateLimiter) (now : Int) : RateLimiter × Bool :=
  let pruned := pruneRequests rl now
  ({ rl with requests := pruned }, decide (pruned.length < rl.maxRequests))

/-- `RateLimiter.recordRequest()`: `this.requests.push(Date.now())`. -/
def recordRequest (rl : RateLimiter) (now : Int) : RateLimiter :=
  { rl with requests := rl.requests ++ [now] }

/-- `Math.min(...l)` on a non-empty spread; `none` for the empty array
(where the source returns early). -/
def minList : List Int → Option Int
  | [] => none
  | x :: xs =>
    some (match minList xs with
      | none => x
      | some m => min x m)

/-- `RateLimiter.getTimeUntilReset()`: `0` when no timestamps are stored,
otherwise `Math.max(0, windowMs - (now - Math.min(...requests)))`.
No pruning happens here. -/
def getTimeUntilReset (rl : RateLimiter) (now : Int) : Int :=
  match minList rl.requests with
  | none => 0
  | some oldest => max 0 (rl.windowMs - (now - oldest))

/-- `RateLimiter.getCurrentCount()`: prunes, then returns the remaining
count, together with the mutated state. -/
def getCurrentCount (rl : RateLimiter) (now : Int) : RateLimiter × Nat :=
  let pruned := pruneRequests rl now
  ({ rl with requests := pruned }, pruned.length)

/-- `RateLimiter.reset()`: clears all timestamps. -/
def resetLimiter (rl : RateLimiter) : RateLimiter :=
  { rl with requests := [] }

/-! ## Helper lemmas on lists -/

theorem length_filter_lt_of_mem_not {α : Type} (p : α → Bool) (l : List α)
    (x : α) (hx : x ∈ l) (hpx : ¬ p x) : (l.filter p).length < l.length := by
  induction l with
  | nil => cases hx
  | cons a l ih =>
    rcases List.mem_cons.mp hx with h | h
    · subst h
      simp only [List.filter_cons, hpx, if_neg]
      have hle := List.length_filter_le p l
      simp only [List.length_cons]
      have : ¬ (p x = true) := hpx
      simp [this]
      omega
    · by_cases hpa : p a = true
      · simp only [List.filter_cons, hpa, if_pos, List.length_cons]
        exact Nat.succ_lt_succ (ih h)
      · simp only [List.filter_cons, hpa]
        simp [hpa]
        have := List.length_filter_le p l
        omega

theorem minList_isSome_of_ne_nil (l : List Int) (h : l ≠ []) :
    ∃ m, minList l = some m := by
  cases l with
  | nil => exact absurd rfl h
  | cons x xs => exact ⟨_, rfl⟩

/-! ## Claim theorems about the rate limiter -/

/-- **C1 counterexample.** The claim says that for every `n ≤ maxRequests`
calls to `recordRequest` within the window, a subsequent `canMakeRequest`
returns false.  With `maxRequests = 2`, `windowMs = 1000`, a single
(`n = 1 ≤ 2`) `recordRequest` at time `0` and `canMakeRequest` also at
time `0`, the limiter answers `true`, not `false`: the code admits while
`count < maxRequests`. -/
theorem C1_counterexample :
    (canMakeRequest (recordRequest ⟨[], 2, 1000⟩ 0) 0).2 = true := by
  decide

/-- **C1 (amended).** For exactly `maxRequests` recorded timestamps all
within `windowMs` of `now`, a subsequent `canMakeRequest` returns `false`;
and once `windowMs` has elapsed past the oldest recorded timestamp (the
minimum), `canMakeRequest` returns `true` again. -/
theorem C1_rate_limiter_window (rl : RateLimiter)
    (hn : rl.requests.length = rl.maxRequests) :
    (∀ now : Int, (∀ t ∈ rl.requests, now - t < rl.windowMs) →
      (canMakeRequest rl now).2 = false) ∧
    (∀ (now : Int) (oldest : Int), oldest ∈ rl.requests →
      (∀ t ∈ rl.requests, oldest ≤ t) →
      now - oldest ≥ rl.windowMs →
      (canMakeRequest rl now).2 = true) := by
  constructor
  · intro now hin
    have hfull : pruneRequests rl now = rl.requests := by
      unfold pruneRequests
      apply List.filter_eq_self.mpr
      intro t ht
      exact decide_eq_true (hin t ht)
    unfold canMakeRequest
    simp only [hfull, hn]
    simp
  · intro now oldest hmem _hmin hexp
    have hlt : (pruneRequests rl now).length < rl.requests.length := by
      unfold pruneRequests
      apply length_filter_lt_of_mem_not _ _ oldest hmem
      simp only [decide_eq_true_eq]
      omega
    unfold canMakeRequest
    simp only []
    rw [hn] at hlt
    simp [hlt]

/-- **C1 witness.** A concrete run of the amended statement:
capacity 2, window 1000ms, two requests recorded at times 0 and 10;
at time 500 the limiter refuses, and at time 1000 (window elapsed past
the oldest timestamp 0) it admits again. -/
theorem C1_rate_limiter_window_witness :
    (canMakeRequest ⟨[0, 10], 2, 1000⟩ 500).2 = false ∧
    (canMakeRequest ⟨[0, 10], 2, 1000⟩ 1000).2 = true := by
  refine ⟨(C1_rate_limiter_window ⟨[0, 10], 2, 1000⟩ (by decide)).1 500 ?_,
    (C1_rate_limiter_window ⟨[0, 10], 2, 1000⟩ (by decide)).2 1000 0 ?_ ?_ ?_⟩
  · intro t ht
    simp only [List.mem_cons, List.mem_singleton] at ht
    rcases ht with h | h | h <;> first | (subst h; decide) | cases h
  · decide
  · intro t ht
    simp only [List.mem_cons, List.mem_singleton] at ht
    rcases ht with h | h | h <;> first | (subst h; decide) | cases h
  · decide

/-- **C8.** `getTimeUntilReset` returns `0` on an empty timestamp list;
otherwise it is `max 0 (windowMs - (now - oldest))` for `oldest` the
minimum recorded timestamp; with no new records it is monotonically
non-increasing in `now`, and it is exactly `0` once `windowMs` has
elapsed past the oldest timestamp. -/
theorem C8_time_until_reset (rl : RateLimiter) :
    (rl.requests = [] → ∀ now : Int, getTimeUntilReset rl now = 0) ∧
    (∀ (now oldest : Int), minList rl.requests = some oldest →
      getTimeUntilReset rl now = max 0 (rl.windowMs - (now - oldest))) ∧
    (∀ now1 now2 : Int, now1 ≤ now2 →
      getTimeUntilReset rl now2 ≤ getTimeUntilReset rl now1) ∧
    (∀ (now oldest : Int), minList rl.requests = some oldest →
      now - oldest ≥ rl.windowMs → getTimeUntilReset rl now = 0) := by
  refine ⟨?_, ?_, ?_, ?_⟩
  · intro hnil now
    unfold getTimeUntilReset
    rw [hnil]
    rfl
  · intro now oldest hmin
    unfold getTimeUntilReset
    rw [hmin]
  · intro now1 now2 hle
    unfold getTimeUntilReset
    cases hmin : minList rl.requests with
    | none => exact le_refl 0
    | some m => simp only []; omega
  · intro now oldest hmin hexp
    unfold getTimeUntilReset
    simp only [hmin]
    omega

/-- **C8 witness.** A limiter with window 1000ms and timestamps `[0, 10]`:
reset time is 900 at `now = 100`, it does not increase from `now = 100`
to `now = 600`, and it is exactly 0 at `now = 1000`. -/
theorem C8_time_until_reset_witness :
    getTimeUntilReset ⟨[0, 10], 2, 1000⟩ 100 = max 0 (1000 - (100 - 0)) ∧
    getTimeUntilReset ⟨[0, 10], 2, 1000⟩ 600 ≤ getTimeUntilReset ⟨[0, 10], 2, 1000⟩ 100 ∧
    getTimeUntilReset ⟨[0, 10], 2, 1000⟩ 1000 = 0 := by
  refine ⟨(C8_time_until_reset ⟨[0, 10], 2, 1000⟩).2.1 100 0 (by decide),
    (C8_time_until_reset ⟨[0, 10], 2, 1000⟩).2.2.1 100 600 (by decide),
    (C8_time_until_reset ⟨[0, 10], 2, 1000⟩).2.2.2 1000 0 (by decide) (by decide)⟩

/-! ## Raw (untyped) JavaScript values reaching the validators -/

/-- A JavaScript value as observed by the validators in
`src/utils/validation.ts`.  A number is split into the integer case and a
non-integer case (`Number.isInteger` is all the code tests beyond
`typeof`); the `Bool` argument of `vNonIntNum` records the JS truthiness
of that number (`NaN` is falsy, other non-integers truthy). -/
inductive RawValue where
  | vStr : String → RawValue
  | vInt : Int → RawValue
  | vNonIntNum : Bool → RawValue
  | vBool : Bool → RawValue
  | vNull : RawValue
  | vArr : List RawValue → RawValue
  | vObj : RawValue

/-- The raw argument object of `validateSearchParams`; each field is
`none` when absent (`undefined`). -/
structure RawSearchFields where
  query : Option RawValue := none
  max_results : Option RawValue := none
  region : Option RawValue := none
  safe_search : Option RawValue := none
  site_restrict : Option RawValue := none
  file_type : Option RawValue := none
  date_range : Option RawValue := none

/-- Input to `validateSearchParams`: either a value failing the
`!params || typeof params !== 'object'` guard, or an object. -/
inductive RawSearchInput where
  | notObj : RawSearchInput
  | obj : RawSearchFields → RawSearchInput

/-- The raw argument object of `validateBulkSearchParams`. -/
structure RawBulkFields where
  queries : Option RawValue := none
  max_results_per_query : Option RawValue := none
  region : Option RawValue := none
  safe_search : Option RawValue := none

/-- Input to `validateBulkSearchParams` and `BulkSearchHandler.handle`.
`jsNull` (JS `null`/`undefined`) is kept apart from other non-objects
because `params.queries?.length` in the bulk handler throws a `TypeError`
on it but not on other primitives. -/
inductive RawBulkInput where
  | jsNull : RawBulkInput
  | notObj : RawBulkInput
  | obj : RawBulkFields → RawBulkInput

/-- `ValidationError`: message plus optional offending field name. -/
structure VErr where
  message : String
  field : Option String
  deriving Repr, DecidableEq

/-- Validated `SearchParams` (`src/types/api.ts`). -/
structure SearchParams where
  query : String
  max_results : Option Int := none
  region : Option String := none
  safe_search : Option Bool := none
  site_restrict : Option String := none
  file_type : Option String := none
  date_range : Option String := none
  deriving Repr, DecidableEq

/-- Validated `BulkSearchParams` (`src/types/api.ts`). -/
structure BulkSearchParams where
  queries : List String
  max_results_per_query : Option Int := none
  region : Option String := none
  safe_search : Option Bool := none
  deriving Repr, DecidableEq

/-! ## The validators (`src/utils/validation.ts`) -/

/-- The combined guard
`if (!params.query || typeof params.query !== 'string') throw ...`:
an absent, falsy or non-string `query` is rejected with one message. -/
def getQuery : Option RawValue → Except VErr String
  | some (.vStr s) =>
    if s = "" then .error ⟨"Query is required and must be a string", some "query"⟩
    else .ok s
  | _ => .error ⟨"Query is required and must be a string", some "query"⟩

/-- The shared shape of the `max_results` / `max_results_per_query`
checks: `typeof !== 'number' || !Number.isInteger` rejects with
`msgType`; an integer outside `[lo, hi]` rejects with `msgRange`. -/
def validateIntField (fieldName msgType msgRange : String) (lo hi : Int) :
    Option RawValue → Except VErr (Option Int)
  | none => .ok none
  | some (.vInt n) =>
    if n < lo ∨ n > hi then .error ⟨msgRange, some fieldName⟩ else .ok (some n)
  | some _ => .error ⟨msgType, some fieldName⟩

/-- The character class `[a-z]`. -/
def lowercaseLetters : List Char :=
  ['a', 'b', 'c', 'd', 'e', 'f', 'g', 'h', 'i', 'j', 'k', 'l', 'm',
   'n', 'o', 'p', 'q', 'r', 's', 't', 'u', 'v', 'w', 'x', 'y', 'z']

/-- The regex `/^[a-z]{2}$/` of the `region` check. -/
def regionPattern (s : String) : Bool :=
  s.length = 2 && s.data.all (fun c => c ∈ lowercaseLetters)

/-- The `region` check shared by both validators: string type, then the
two-lowercase-letter regex, then `toLowerCase()` normalization. -/
def validateRegionField : Option RawValue → Except VErr (Option String)
  | none => .ok none
  | some (.vStr s) =>
    if regionPattern s then .ok (some (jsToLower s))
    else .error ⟨"region must be a 2-letter country code", some "region"⟩
  | some _ => .error ⟨"region must be a string", some "region"⟩

/-- The `safe_search` check shared by both validators. -/
def validateBoolField : Option RawValue → Except VErr (Option Bool)
  | none => .ok none
  | some (.vBool b) => .ok (some b)
  | some _ => .error ⟨"safe_search must be a boolean", some "safe_search"⟩

/-- The `site_restrict` check: string type, non-empty after trim,
stored trimmed. -/
def validateSiteRestrict : Option RawValue → Except VErr (Option String)
  | none => .ok none
  | some (.vStr s) =>
    if (jsTrim s).length = 0 then
      .error ⟨"site_restrict cannot be empty", some "site_restrict"⟩
    else .ok (some (jsTrim s))
  | some _ => .error ⟨"site_restrict must be a string", some "site_restrict"⟩

/-- `allowedTypes` of the `file_type` check. -/
def allowedTypes : List String :=
  ["pdf", "doc", "docx", "ppt", "pptx", "xls", "xlsx", "txt", "rtf"]

/-- The `file_type` check: string type, lowercased membership in
`allowedTypes`, stored lowercased. -/
def validateFileType : Option RawValue → Except VErr (Option String)
  | none => .ok none
  | some (.vStr s) =>
    if jsToLower s ∈ allowedTypes then .ok (some (jsToLower s))
    else .error ⟨"file_type must be one of: pdf, doc, docx, ppt, pptx, xls, xlsx, txt, rtf",
      some "file_type"⟩
  | some _ => .error ⟨"file_type must be a string", some "file_type"⟩

/-- `allowedRanges` of the `date_range` check. -/
def allowedRanges : List String :=
  ["past_day", "past_week", "past_month", "past_year"]

/-- The `date_range` check: string type, membership in `allowedRanges`,
stored as-is. -/
def validateDateRange : Option RawValue → Except VErr (Option String)
  | none => .ok none
  | some (.vStr s) =>
    if s ∈ allowedRanges then .ok (some s)
    else .error ⟨"date_range must be one of: past_day, past_week, past_month, past_year",
      some "date_range"⟩
  | some _ => .error ⟨"date_range must be a string", some "date_range"⟩

/-- `validateSearchParams` (`src/utils/validation.ts`, lines 17–104). -/
def validateSearchParams : RawSearchInput → Except VErr SearchParams
  | .notObj => .error ⟨"Parameters must be an object", none⟩
  | .obj p =>
    match getQuery p.query with
    | .error e => .error e
    | .ok q =>
      if (jsTrim q).length = 0 then .error ⟨"Query cannot be empty", some "query"⟩
      else if q.length > 500 then .error ⟨"Query cannot exceed 500 characters", some "query"⟩
      else
        match validateIntField "max_results" "max_results must be an integer"
            "max_results must be between 1 and 300" 1 300 p.max_results with
        | .error e => .error e
        | .ok mr =>
          match validateRegionField p.region with
          | .error e => .error e
          | .ok rg =>
            match validateBoolField p.safe_search with
            | .error e => .error e
            | .ok ss =>
              match validateSiteRestrict p.site_restrict with
              | .error e => .error e
              | .ok sr =>
                match validateFileType p.file_type with
                | .error e => .error e
                | .ok ft =>
                  match validateDateRange p.date_range with
                  | .error e => .error e
                  | .ok dr =>
                    .ok { query := jsTrim q, max_results := mr, region := rg,
                          safe_search := ss, site_restrict := sr,
                          file_type := ft, date_range := dr }

/-- The per-element loop of `validateBulkSearchParams` (lines 127–140):
string type, non-empty after trim, ≤500 chars, stored trimmed.  The
second argument is the running index `i` used in the error messages. -/
def validateQueryList : List RawValue → Nat → Except VErr (List String)
  | [], _ => .ok []
  | v :: rest, i =>
    match v with
    | .vStr s =>
      if (jsTrim s).length = 0 then
        .error ⟨"Query at index " ++ toString i ++ " cannot be empty", some "queries"⟩
      else if s.length > 500 then
        .error ⟨"Query at index " ++ toString i ++ " cannot exceed 500 characters", some "queries"⟩
      else
        match validateQueryList rest (i + 1) with
        | .error e => .error e
        | .ok out => .ok (jsTrim s :: out)
    | _ => .error ⟨"Query at index " ++ toString i ++ " must be a string", some "queries"⟩

/-- `validateBulkSearchParams` (`src/utils/validation.ts`, lines 109–177). -/
def validateBulkSearchParams : RawBulkInput → Except VErr BulkSearchParams
  | .jsNull => .error ⟨"Parameters must be an object", none⟩
  | .notObj => .error ⟨"Parameters must be an object", none⟩
  | .obj p =>
    match p.queries with
    | some (.vArr qs) =>
      if qs.length = 0 then .error ⟨"queries array cannot be empty", some "queries"⟩
      else if qs.length > 20 then .error ⟨"queries array cannot exceed 20 items", some "queries"⟩
      else
        match validateQueryList qs 0 with
        | .error e => .error e
        | .ok vqs =>
          match validateIntField "max_results_per_query"
              "max_results_per_query must be an integer"
              "max_results_per_query must be between 1 and 50" 1 50
              p.max_results_per_query with
          | .error e => .error e
          | .ok mr =>
            match validateRegionField p.region with
            | .error e => .error e
            | .ok rg =>
              match validateBoolField p.safe_search with
              | .error e => .error e
              | .ok ss =>
                .ok { queries := vqs, max_results_per_query := mr,
                      region := rg, safe_search := ss }
    | _ => .error ⟨"queries is required and must be an array", some "queries"⟩

/-! ## The sanitizer (`sanitizeQuery`, `src/utils/validation.ts` 182–188) -/

/-- `query.replace(/[<>"']/g, '')`. -/
def removeDangerousChars (l : List Char) : List Char :=
  l.filter (fun c => !(c = '<' || c = '>' || c = '"' || c = '\''))

/-- `query.replace(/\s+/g, ' ')`: collapse each whitespace run to a
single space.  The boolean tracks whether the previous character was
part of a whitespace run. -/
def collapseWsAux : Bool → List Char → List Char
  | _, [] => []
  | prevWs, c :: rest =>
    if jsWhitespace c then
      if prevWs then collapseWsAux true rest
      else ' ' :: collapseWsAux true rest
    else c :: collapseWsAux false rest

/-- `sanitizeQuery`: remove `< > " '`, collapse whitespace runs to a
single space, trim. -/
def sanitizeQuery (query : String) : String :=
  ⟨jsTrimList (collapseWsAux false (removeDangerousChars query.data))⟩

/-! ## Provider result types (`src/types/api.ts`) -/

/-- `SearchResult`. -/
structure SearchResult where
  title : String
  url : String
  snippet : String
  position : Int
  domain : Option String := none
  favicon : Option String := none
  date : Option String := none
  deriving Repr, DecidableEq

/-- `WebSearchResponse`. -/
structure WebSearchResponse where
  results : List SearchResult
  total_results : Option Int := none
  search_time : Option Int := none
  query : String
  region : Option String := none
  deriving Repr, DecidableEq

/-- One entry of `BulkSearchResponse.searches`. -/
structure BulkEntry where
  query : String
  results : List SearchResult
  total_results : Option Int := none
  deriving Repr, DecidableEq

/-- `BulkSearchResponse`. -/
structure BulkSearchResponse where
  searches : List BulkEntry
  search_time : Option Int := none
  deriving Repr, DecidableEq

/-- `RapidAPIError`. -/
structure RapidAPIError where
  message : String
  code : Option String := none
  status : Option Int := none
  deriving Repr, DecidableEq

/-- Rate-limit telemetry extracted from provider headers. -/
structure RateLimitInfo where
  remaining : Int
  reset_time : Int
  deriving Repr, DecidableEq

/-- `APIResponse<T>`. -/
structure APIResponse (α : Type) where
  success : Bool
  data : Option α := none
  error : Option RapidAPIError := none
  rate_limit : Option RateLimitInfo := none
  deriving Repr, DecidableEq

/-! ## Search orchestrator (`OpenWebNinjaService`, `src/unnamed/part_002`)

`OpenWebNinjaService.search` performs the HTTP round trip; it is the
external boundary of the embedding and is passed in as an oracle
`searchFn : SearchParams → APIResponse WebSearchResponse`. -/

/-- `OpenWebNinjaService.mapDateRange` (lines 200–209): the fixed lookup
table, `null` for unrecognized values. -/
def mapDateRange (dateRange : String) : Option String :=
  if dateRange = "past_day" then some "after:1d"
  else if dateRange = "past_week" then some "after:1w"
  else if dateRange = "past_month" then some "after:1m"
  else if dateRange = "past_year" then some "after:1y"
  else none

/-- The query composition of `OpenWebNinjaService.advancedSearch`
(lines 113–132): append ` site:...`, then ` filetype:...`, then the
mapped date fragment; each guard is the JS truthiness test on the
optional field (absent or empty string skips the fragment). -/
def advQuery (params : SearchParams) : String :=
  let query := params.query
  let query := match params.site_restrict with
    | some s => if s = "" then query else query ++ " site:" ++ s
    | none => query
  let query := match params.file_type with
    | some ft => if ft = "" then query else query ++ " filetype:" ++ ft
    | none => query
  match params.date_range with
  | some dr =>
    if dr = "" then query
    else
      match mapDateRange dr with
      | some dateParam => query ++ " " ++ dateParam
      | none => query
  | none => query

/-- `OpenWebNinjaService.advancedSearch`: composes the query and
delegates to `search` with the other fields unchanged. -/
def advancedSearch (searchFn : SearchParams → APIResponse WebSearchResponse)
    (params : SearchParams) : APIResponse WebSearchResponse :=
  searchFn { params with query := advQuery params }

/-- The `SearchParams` built for one sub-query inside
`OpenWebNinjaService.bulkSearch` (lines 67–72):
`{ query, max_results: params.max_results_per_query || 10, region, safe_search }`. -/
def bulkSearchEntry (params : BulkSearchParams) (query : String) : SearchParams :=
  { query := query,
    max_results := some (match params.max_results_per_query with
      | some n => if n = 0 then 10 else n
      | none => 10),
    region := params.region,
    safe_search := params.safe_search }

/-- `OpenWebNinjaService.bulkSearch` (lines 62–108): one `search` call
per query, strictly in input order; a failed sub-search
(`!(searchResult.success && searchResult.data)`) is recorded as an entry
with empty `results` and `total_results: 0`; the batch itself always
reports `success: true`.  (`Date.now()` for `search_time` is the `now`
argument; the inter-call `delay(100)` has no observable effect in this
time-free embedding.) -/
def bulkSearch (searchFn : SearchParams → APIResponse WebSearchResponse)
    (now : Int) (params : BulkSearchParams) : APIResponse BulkSearchResponse :=
  let searches := params.queries.map (fun query =>
    let searchResult := searchFn (bulkSearchEntry params query)
    match searchResult.success, searchResult.data with
    | true, some d =>
      ({ query := query, results := d.results, total_results := d.total_results } : BulkEntry)
    | _, _ => ({ query := query, results := [], total_results := some 0 } : BulkEntry))
  { success := true,
    data := some { searches := searches, search_time := some now },
    error := none, rate_limit := none }

/-! ## Tool handlers -/

/-- The control-flow outcome of a handler run (each constructor is one of
the early-return branches of `handle`). -/
inductive ToolOutcome where
  | rateLimited : ToolOutcome
  | validationFailed : VErr → ToolOutcome
  | searchFailed : ToolOutcome
  | noResults : ToolOutcome
  | okResult : ToolOutcome
  | unexpectedError : ToolOutcome
  deriving Repr, DecidableEq

/-- Observable effect of one handler run: the final rate-limiter state,
the provider calls issued (in order), and the branch taken. -/
structure HandlerRun where
  limiter : RateLimiter
  calls : List SearchParams
  outcome : ToolOutcome
  deriving Repr, DecidableEq

/-- `WebSearchHandler.handle` (`src/handlers/webSearch.ts`, lines 17–89):
rate-limit check, validation, sanitization of the validated query,
`recordRequest`, then one provider call. -/
def webSearchHandle (searchFn : SearchParams → APIResponse WebSearchResponse)
    (rl : RateLimiter) (now : Int) (raw : RawSearchInput) : HandlerRun :=
  let checked := canMakeRequest rl now
  if checked.2 = false then
    { limiter := checked.1, calls := [], outcome := .rateLimited }
  else
    match validateSearchParams raw with
    | .error e => { limiter := checked.1, calls := [], outcome := .validationFailed e }
    | .ok validated =>
      let validated := { validated with query := sanitizeQuery validated.query }
      let rl2 := recordRequest checked.1 now
      let result := searchFn validated
      if result.success = false then
        { limiter := rl2, calls := [validated], outcome := .searchFailed }
      else
        match result.data with
        | none => { limiter := rl2, calls := [validated], outcome := .noResults }
        | some d =>
          if d.results.length = 0 then
            { limiter := rl2, calls := [validated], outcome := .noResults }
          else { limiter := rl2, calls := [validated], outcome := .okResult }

/-- `AdvancedSearchHandler.handle` (`src/unnamed/part_004`): same flow as
`WebSearchHandler.handle` but delegating to `advancedSearch`. -/
def advancedSearchHandle (searchFn : SearchParams → APIResponse WebSearchResponse)
    (rl : RateLimiter) (now : Int) (raw : RawSearchInput) : HandlerRun :=
  let checked := canMakeRequest rl now
  if checked.2 = false then
    { limiter := checked.1, calls := [], outcome := .rateLimited }
  else
    match validateSearchParams raw with
    | .error e => { limiter := checked.1, calls := [], outcome := .validationFailed e }
    | .ok validated =>
      let validated := { validated with query := sanitizeQuery validated.query }
      let rl2 := recordRequest checked.1 now
      let result := advancedSearch searchFn validated
      let callsMade : List SearchParams := [{ validated with query := advQuery validated }]
      if result.success = false then
        { limiter := rl2, calls := callsMade, outcome := .searchFailed }
      else
        match result.data with
        | none => { limiter := rl2, calls := callsMade, outcome := .noResults }
        | some d =>
          if d.results.length = 0 then
            { limiter := rl2, calls := callsMade, outcome := .noResults }
          else { limiter := rl2, calls := callsMade, outcome := .okResult }

/-- `params.queries?.length || 1` of `BulkSearchHandler.handle`. -/
def estimatedRequests (p : RawBulkFields) : Nat :=
  let len := match p.queries with
    | some (.vArr qs) => qs.length
    | some (.vStr s) => s.length
    | _ => 0
  if len = 0 then 1 else len

/-- `BulkSearchHandler.handle` (`src/unnamed/part_003`, lines 17–87):
pre-flight capacity estimate against the hard-coded `100`, validation,
per-query sanitization, then `bulkSearch`.  Note: no `recordRequest`
call anywhere on this path.  A `null`/`undefined` argument makes
`params.queries?.length` throw, caught by the outer handler
(`unexpectedError`). -/
def bulkSearchHandle (searchFn : SearchParams → APIResponse WebSearchResponse)
    (rl : RateLimiter) (now : Int) (raw : RawBulkInput) : HandlerRun :=
  match raw with
  | .jsNull => { limiter := rl, calls := [], outcome := .unexpectedError }
  | .notObj =>
    let counted := getCurrentCount rl now
    if counted.2 + 1 > 100 then
      { limiter := counted.1, calls := [], outcome := .rateLimited }
    else
      { limiter := counted.1, calls := [],
        outcome := .validationFailed ⟨"Parameters must be an object", none⟩ }
  | .obj p =>
    let est := estimatedRequests p
    let counted := getCurrentCount rl now
    if counted.2 + est > 100 then
      { limiter := counted.1, calls := [], outcome := .rateLimited }
    else
      match validateBulkSearchParams (.obj p) with
      | .error e => { limiter := counted.1, calls := [], outcome := .validationFailed e }
      | .ok validated =>
        let validated := { validated with queries := validated.queries.map sanitizeQuery }
        let result := bulkSearch searchFn now validated
        let calls := validated.queries.map (bulkSearchEntry validated)
        if result.success = false then
          { limiter := counted.1, calls := calls, outcome := .searchFailed }
        else
          match result.data with
          | none => { limiter := counted.1, calls := calls, outcome := .noResults }
          | some d =>
            if d.searches.length = 0 then
              { limiter := counted.1, calls := calls, outcome := .noResults }
            else { limiter := counted.1, calls := calls, outcome := .okResult }

/-! ## Helper lemmas on trimming and lowercasing -/

theorem length_dropWhile_le (p : Char → Bool) (l : List Char) :
    (l.dropWhile p).length ≤ l.length := by
  have h := congrArg List.length (List.takeWhile_append_dropWhile p l)
  simp only [List.length_append] at h
  omega

theorem jsTrimList_length_le (l : List Char) : (jsTrimList l).length ≤ l.length := by
  unfold jsTrimList
  have h1 := length_dropWhile_le jsWhitespace l
  have h2 := length_dropWhile_le jsWhitespace (l.dropWhile jsWhitespace).reverse
  simp only [List.length_reverse] at *
  omega

theorem jsTrimList_idem (l : List Char) : jsTrimList (jsTrimList l) = jsTrimList l := by
  unfold jsTrimList
  have hmm : (l.dropWhile jsWhitespace).dropWhile jsWhitespace = l.dropWhile jsWhitespace :=
    List.dropWhile_idempotent jsWhitespace l
  have hrr : ((l.dropWhile jsWhitespace).reverse.dropWhile jsWhitespace).dropWhile jsWhitespace
      = (l.dropWhile jsWhitespace).reverse.dropWhile jsWhitespace :=
    List.dropWhile_idempotent jsWhitespace (l.dropWhile jsWhitespace).reverse
  have hA : ((l.dropWhile jsWhitespace).reverse.dropWhile jsWhitespace).reverse.dropWhile jsWhitespace
      = ((l.dropWhile jsWhitespace).reverse.dropWhile jsWhitespace).reverse := by
    cases hcase : ((l.dropWhile jsWhitespace).reverse.dropWhile jsWhitespace).reverse with
    | nil => simp
    | cons a u =>
      have hsplit : (l.dropWhile jsWhitespace).reverse.takeWhile jsWhitespace ++
          (l.dropWhile jsWhitespace).reverse.dropWhile jsWhitespace
          = (l.dropWhile jsWhitespace).reverse :=
        List.takeWhile_append_dropWhile jsWhitespace (l.dropWhile jsWhitespace).reverse
      have hm2 : l.dropWhile jsWhitespace =
          ((l.dropWhile jsWhitespace).reverse.dropWhile jsWhitespace).reverse ++
          ((l.dropWhile jsWhitespace).reverse.takeWhile jsWhitespace).reverse := by
        have h' := congrArg List.reverse hsplit
        rw [List.reverse_append, List.reverse_reverse] at h'
        exact h'.symm
      have hm3 : l.dropWhile jsWhitespace = a :: (u ++
          ((l.dropWhile jsWhitespace).reverse.takeWhile jsWhitespace).reverse) :=
        calc l.dropWhile jsWhitespace
            = ((l.dropWhile jsWhitespace).reverse.dropWhile jsWhitespace).reverse ++
              ((l.dropWhile jsWhitespace).reverse.takeWhile jsWhitespace).reverse := hm2
          _ = (a :: u) ++
              ((l.dropWhile jsWhitespace).reverse.takeWhile jsWhitespace).reverse := by
              rw [hcase]
          _ = a :: (u ++
              ((l.dropWhile jsWhitespace).reverse.takeWhile jsWhitespace).reverse) := by
              simp
      have hnpa : ¬ jsWhitespace a = true := by
        intro hpa
        have hmm2 := hmm
        rw [hm3] at hmm2
        conv at hmm2 => lhs; rw [List.dropWhile_cons]
        simp only [hpa, if_true] at hmm2
        have hlen := congrArg List.length hmm2
        have hle := length_dropWhile_le jsWhitespace
          (u ++ ((l.dropWhile jsWhitespace).reverse.takeWhile jsWhitespace).reverse)
        simp only [List.length_cons] at hlen
        omega
      rw [List.dropWhile_cons]
      simp [hnpa]
  rw [hA, List.reverse_reverse, hrr]

theorem jsTrim_idem (s : String) : jsTrim (jsTrim s) = jsTrim s := by
  cases s with
  | mk l =>
    show String.mk (jsTrimList (jsTrimList l)) = String.mk (jsTrimList l)
    rw [jsTrimList_idem]

theorem jsTrim_length_le (s : String) : (jsTrim s).length ≤ s.length := by
  cases s with
  | mk l => exact jsTrimList_length_le l

theorem string_eq_empty_of_length_zero {s : String} (h : s.length = 0) : s = "" := by
  cases s with
  | mk l =>
    cases l with
    | nil => rfl
    | cons a u => simp [String.length] at h

theorem jsToLowerChar_mem_lower {c : Char} (h : c ∈ lowercaseLetters) :
    jsToLowerChar c = c := by
  have : lowercaseLetters.all (fun c => jsToLowerChar c = c) = true := by decide
  rw [List.all_eq_true] at this
  simpa using this c h

theorem map_jsToLowerChar_self : ∀ (l : List Char),
    (∀ c ∈ l, c ∈ lowercaseLetters) → l.map jsToLowerChar = l := by
  intro l h
  induction l with
  | nil => rfl
  | cons a u ih =>
    have ha : a ∈ lowercaseLetters := h a (by simp)
    simp only [List.map_cons]
    rw [jsToLowerChar_mem_lower ha]
    rw [ih (fun x hx => h x (by simp [hx]))]

theorem jsToLower_of_regionPattern {s : String} (h : regionPattern s = true) :
    jsToLower s = s := by
  unfold regionPattern at h
  rw [Bool.and_eq_true] at h
  obtain ⟨_, hall⟩ := h
  rw [List.all_eq_true] at hall
  cases s with
  | mk l =>
    show String.mk (l.map jsToLowerChar) = String.mk l
    congr 1
    apply map_jsToLowerChar_self
    intro c hc
    have := hall c hc
    simpa using this

/-! ## Claim C4: region validation -/

/-- **C4 counterexample.** The claim says `region = "US"` is accepted and
normalized to `"us"`; the code's regex `/^[a-z]{2}$/` has no `i`-flag and
no pre-lowering, so `"US"` is rejected with a `ValidationError`. -/
theorem C4_counterexample :
    validateSearchParams (.obj { query := some (.vStr "test"), region := some (.vStr "US") })
      = .error ⟨"region must be a 2-letter country code", some "region"⟩ := by
  rfl

/-- **C4 (amended).** Region validation accepts exactly the strings
matching `/^[a-z]{2}$/`: `"us"` is accepted and returned unchanged (the
`toLowerCase()` normalization is the identity on every accepted value),
while both `"US"` and `"usa"` are rejected with a `ValidationError`
tagged `region`. -/
theorem C4_region_validation :
    validateSearchParams (.obj { query := some (.vStr "test"), region := some (.vStr "us") })
      = .ok { query := "test", region := some "us" } ∧
    validateSearchParams (.obj { query := some (.vStr "test"), region := some (.vStr "US") })
      = .error ⟨"region must be a 2-letter country code", some "region"⟩ ∧
    validateSearchParams (.obj { query := some (.vStr "test"), region := some (.vStr "usa") })
      = .error ⟨"region must be a 2-letter country code", some "region"⟩ ∧
    (∀ (v : Option RawValue) (r : String), validateRegionField v = .ok (some r) →
      regionPattern r = true ∧ jsToLower r = r) := by
  refine ⟨by rfl, by rfl, by rfl, ?_⟩
  intro v r h
  match v with
  | none => cases h
  | some (.vStr s) =>
    unfold validateRegionField at h
    by_cases hp : regionPattern s = true
    · simp only [hp, if_true] at h
      cases h
      have hid := jsToLower_of_regionPattern hp
      rw [hid]
      exact ⟨hp, jsToLower_of_regionPattern hp⟩
    · simp [hp] at h
  | some (.vInt n) => cases h
  | some (.vNonIntNum b) => cases h
  | some (.vBool b) => cases h
  | some .vNull => cases h
  | some (.vArr a) => cases h
  | some .vObj => cases h

/-- **C4 witness.** The general clause of `C4_region_validation` applied
to the accepted value `"us"`. -/
theorem C4_region_validation_witness :
    regionPattern "us" = true ∧ jsToLower "us" = "us" :=
  C4_region_validation.2.2.2 (some (.vStr "us")) "us" (by rfl)

/-! ## Claim C6: field-tagged validation errors -/

theorem getQuery_field (v : Option RawValue) (e : VErr)
    (h : getQuery v = .error e) : e.field ≠ none := by
  unfold getQuery at h
  repeat' split at h
  all_goals try cases h
  all_goals decide

theorem validateIntField_field (a b c : String) (lo hi : Int) (v : Option RawValue) (e : VErr)
    (h : validateIntField a b c lo hi v = .error e) : e.field ≠ none := by
  unfold validateIntField at h
  repeat' split at h
  all_goals try cases h
  all_goals simp

theorem validateRegionField_field (v : Option RawValue) (e : VErr)
    (h : validateRegionField v = .error e) : e.field ≠ none := by
  unfold validateRegionField at h
  repeat' split at h
  all_goals try cases h
  all_goals decide

theorem validateBoolField_field (v : Option RawValue) (e : VErr)
    (h : validateBoolField v = .error e) : e.field ≠ none := by
  unfold validateBoolField at h
  repeat' split at h
  all_goals try cases h
  all_goals decide

theorem validateSiteRestrict_field (v : Option RawValue) (e : VErr)
    (h : validateSiteRestrict v = .error e) : e.field ≠ none := by
  unfold validateSiteRestrict at h
  repeat' split at h
  all_goals try cases h
  all_goals decide

theorem validateFileType_field (v : Option RawValue) (e : VErr)
    (h : validateFileType v = .error e) : e.field ≠ none := by
  unfold validateFileType at h
  repeat' split at h
  all_goals try cases h
  all_goals decide

theorem validateDateRange_field (v : Option RawValue) (e : VErr)
    (h : validateDateRange v = .error e) : e.field ≠ none := by
  unfold validateDateRange at h
  repeat' split at h
  all_goals try cases h
  all_goals decide

theorem validateQueryList_field (qs : List RawValue) (i : Nat) (e : VErr)
    (h : validateQueryList qs i = .error e) : e.field ≠ none := by
  induction qs generalizing i with
  | nil => cases h
  | cons v rest ih =>
    unfold validateQueryList at h
    repeat' split at h
    all_goals try cases h
    all_goals try simp
    all_goals solve_by_elim [ih]

/-- **C6 counterexample.** The claim says every `ValidationError` raised
by the validators carries the offending field name; the top-level
`'Parameters must be an object'` error (raised when the input is not a
non-null object) carries no field. -/
theorem C6_counterexample :
    validateSearchParams .notObj = .error ⟨"Parameters must be an object", none⟩ ∧
    validateBulkSearchParams .notObj = .error ⟨"Parameters must be an object", none⟩ := by
  exact ⟨rfl, rfl⟩

/-- **C6 (amended).** Every `ValidationError` raised by
`validateSearchParams` or `validateBulkSearchParams` on an object input —
that is, every error except the initial `'Parameters must be an object'`
rejection of a non-object argument — carries the offending field name. -/
theorem C6_field_tagged :
    (∀ (p : RawSearchFields) (e : VErr),
      validateSearchParams (.obj p) = .error e → e.field ≠ none) ∧
    (∀ (p : RawBulkFields) (e : VErr),
      validateBulkSearchParams (.obj p) = .error e → e.field ≠ none) := by
  constructor
  · intro p e h
    unfold validateSearchParams at h
    repeat' split at h
    all_goals try cases h
    all_goals first
      | contradiction
      | decide
      | solve_by_elim [getQuery_field, validateIntField_field, validateRegionField_field,
          validateBoolField_field, validateSiteRestrict_field, validateFileType_field,
          validateDateRange_field]
  · intro p e h
    unfold validateBulkSearchParams at h
    repeat' split at h
    all_goals try cases h
    all_goals first
      | contradiction
      | decide
      | solve_by_elim [validateQueryList_field, validateIntField_field,
          validateRegionField_field, validateBoolField_field]

/-- **C6 witness.** The amended statement applied to two concrete
malformed object inputs: a missing `query` and a non-array `queries`;
both rejections are tagged with the offending field. -/
theorem C6_field_tagged_witness :
    (⟨"Query is required and must be a string", some "query"⟩ : VErr).field ≠ none ∧
    (⟨"queries is required and must be an array", some "queries"⟩ : VErr).field ≠ none := by
  exact ⟨C6_field_tagged.1 {} _ rfl, C6_field_tagged.2 {} _ rfl⟩

/-! ## Claim C2: bulk-search per-query failure isolation -/

/-- **C2.** `bulkSearch` always reports overall success; its batch holds
exactly one entry per input query, in input order (the entry queries read
back as the input list); and whenever the provider call for the `i`-th
query fails (`!(searchResult.success && searchResult.data)`), the `i`-th
entry has an empty result list and `total_results = 0`. -/
theorem C2_bulk_failure_isolation
    (searchFn : SearchParams → APIResponse WebSearchResponse) (now : Int)
    (params : BulkSearchParams) :
    (bulkSearch searchFn now params).success = true ∧
    ∃ d, (bulkSearch searchFn now params).data = some d ∧
      d.searches.map (fun entry => entry.query) = params.queries ∧
      (∀ (i : Nat) (q : String), params.queries[i]? = some q →
        ¬((searchFn (bulkSearchEntry params q)).success = true ∧
          (searchFn (bulkSearchEntry params q)).data.isSome = true) →
        d.searches[i]? = some ⟨q, [], some 0⟩) := by
  refine ⟨rfl, _, rfl, ?_, ?_⟩
  · show (params.queries.map _).map _ = params.queries
    rw [List.map_map]
    have hid : ∀ q ∈ params.queries, ((fun entry => entry.query) ∘ (fun query =>
        match (searchFn (bulkSearchEntry params query)).success,
              (searchFn (bulkSearchEntry params query)).data with
        | true, some d =>
          ({ query := query, results := d.results, total_results := d.total_results } : BulkEntry)
        | _, _ => ({ query := query, results := [], total_results := some 0 } : BulkEntry))) q
        = id q := by
      intro q _
      cases h1 : (searchFn (bulkSearchEntry params q)).success <;>
        cases h2 : (searchFn (bulkSearchEntry params q)).data <;>
        simp [h1, h2]
    rw [List.map_congr_left hid, List.map_id]
  · intro i q hq hfail
    show (params.queries.map _)[i]? = _
    rw [List.getElem?_map, hq]
    cases h1 : (searchFn (bulkSearchEntry params q)).success <;>
      cases h2 : (searchFn (bulkSearchEntry params q)).data <;>
      simp [h1, h2] at hfail ⊢

/-- A provider oracle that fails exactly on the query `bad` and succeeds
with one result otherwise (used to instantiate claim theorems). -/
def searchFnFailOn (bad : String) : SearchParams → APIResponse WebSearchResponse :=
  fun p =>
    if p.query = bad then
      { success := false, error := some { message := "boom" } }
    else
      { success := true,
        data := some { results := [{ title := "t", url := "u", snippet := "s", position := 1 }],
                       total_results := some 1, query := p.query } }

/-- The queries of the entries of a bulk response, in order. -/
def entryQueries (d : BulkSearchResponse) : List String :=
  d.searches.map (fun entry => entry.query)

/-- The `i`-th entry of a bulk `APIResponse`, when present. -/
def entriesData (r : APIResponse BulkSearchResponse) (i : Nat) : Option BulkEntry :=
  match r.data with
  | some d => d.searches[i]?
  | none => none

/-- **C2 witness.** Three queries, the provider failing on the second:
the batch succeeds, contains the three queries in order, and entry #2
(index 1) is `⟨"b", [], 0⟩`. -/
theorem C2_bulk_failure_isolation_witness :
    (bulkSearch (searchFnFailOn "b") 0 ⟨["a", "b", "c"], none, none, none⟩).success = true ∧
    Option.map entryQueries
      (bulkSearch (searchFnFailOn "b") 0 ⟨["a", "b", "c"], none, none, none⟩).data
      = some ["a", "b", "c"] ∧
    entriesData (bulkSearch (searchFnFailOn "b") 0 ⟨["a", "b", "c"], none, none, none⟩) 1
      = some ⟨"b", [], some 0⟩ := by
  obtain ⟨h1, d, h2, h3, h4⟩ :=
    C2_bulk_failure_isolation (searchFnFailOn "b") 0 ⟨["a", "b", "c"], none, none, none⟩
  refine ⟨h1, ?_, ?_⟩
  · rw [h2]
    show some (entryQueries d) = some ["a", "b", "c"]
    unfold entryQueries
    rw [h3]
  · unfold entriesData
    rw [h2]
    exact h4 1 "b" (by decide) (by decide)

/-! ## Claim C3: advanced-search query composition -/

/-- A provider oracle that always reports failure (used to instantiate
claim theorems). -/
def constFalseFn : SearchParams → APIResponse WebSearchResponse :=
  fun _ => { success := false }

/-- **C3.** `advancedSearch` composes the provider query in the fixed
order query, ` site:<site_restrict>`, ` filetype:<file_type>`, then the
date fragment from the fixed table (`past_day→after:1d`,
`past_week→after:1w`, `past_month→after:1m`, `past_year→after:1y`);
unrecognized `date_range` values are silently omitted; and it delegates
to `search` with the composed query and all other fields unchanged. -/
theorem C3_advanced_query_composition :
    (∀ (searchFn : SearchParams → APIResponse WebSearchResponse) (p : SearchParams)
      (s ft dr dfrag : String),
      p.site_restrict = some s → s ≠ "" →
      p.file_type = some ft → ft ≠ "" →
      p.date_range = some dr → mapDateRange dr = some dfrag →
      advancedSearch searchFn p =
        searchFn { p with
          query := p.query ++ " site:" ++ s ++ " filetype:" ++ ft ++ " " ++ dfrag }) ∧
    mapDateRange "past_day" = some "after:1d" ∧
    mapDateRange "past_week" = some "after:1w" ∧
    mapDateRange "past_month" = some "after:1m" ∧
    mapDateRange "past_year" = some "after:1y" ∧
    (∀ dr, ¬ dr ∈ allowedRanges → mapDateRange dr = none) ∧
    (∀ (searchFn : SearchParams → APIResponse WebSearchResponse) (p : SearchParams)
      (dr : String),
      p.site_restrict = none → p.file_type = none → p.date_range = some dr →
      mapDateRange dr = none →
      advancedSearch searchFn p = searchFn { p with query := p.query }) := by
  refine ⟨?_, rfl, rfl, rfl, rfl, ?_, ?_⟩
  · intro searchFn p s ft dr dfrag hs hsne hft hftne hdr hmap
    unfold advancedSearch advQuery
    rw [hs, hft, hdr]
    have hdrne : dr ≠ "" := by
      intro hdre
      rw [hdre] at hmap
      cases hmap
    simp [hsne, hftne, hdrne, hmap]
  · intro dr hnm
    unfold mapDateRange
    simp only [allowedRanges, List.mem_cons, List.mem_singleton, not_or] at hnm
    obtain ⟨h1, h2, h3, h4⟩ := hnm
    simp [h1, h2, h3, h4]
  · intro searchFn p dr hs hft hdr hmap
    unfold advancedSearch advQuery
    rw [hs, hft, hdr]
    by_cases hdre : dr = ""
    · simp [hdre]
    · simp [hdre, hmap]

/-- The spec's advanced-search example parameters. -/
def advExample : SearchParams :=
  { query := "q", site_restrict := some "x.com", file_type := some "pdf",
    date_range := some "past_year" }

/-- **C3 witness.** The composition clause applied to the spec's example:
`site_restrict="x.com"`, `file_type="pdf"`, `date_range="past_year"`
yields the provider query `"q site:x.com filetype:pdf after:1y"`. -/
theorem C3_advanced_query_composition_witness :
    advancedSearch constFalseFn advExample =
      constFalseFn { advExample with query := "q site:x.com filetype:pdf after:1y" } := by
  have h := C3_advanced_query_composition.1 constFalseFn advExample
    "x.com" "pdf" "past_year" "after:1y" rfl (by decide) rfl (by decide) rfl rfl
  rw [h]
  congr 1

/-! ## Claim C7: bulk size bounds and per-element validation -/

/-- The single-query element rules of the bulk validator: a string,
non-empty after trim, at most 500 characters. -/
def validElem (v : RawValue) : Bool :=
  match v with
  | .vStr s => (jsTrim s).length ≠ 0 && s.length ≤ 500
  | _ => false

/-- The error produced for an offending element at index `i`,
index preserved in the message. -/
def elemError (i : Nat) (v : RawValue) : VErr :=
  match v with
  | .vStr s =>
    if (jsTrim s).length = 0 then
      ⟨"Query at index " ++ toString i ++ " cannot be empty", some "queries"⟩
    else ⟨"Query at index " ++ toString i ++ " cannot exceed 500 characters", some "queries"⟩
  | _ => ⟨"Query at index " ++ toString i ++ " must be a string", some "queries"⟩

theorem validateBulk_over20 (p : RawBulkFields) (qs : List RawValue)
    (hq : p.queries = some (.vArr qs)) (hlen : qs.length = 21) :
    validateBulkSearchParams (.obj p)
      = .error ⟨"queries array cannot exceed 20 items", some "queries"⟩ := by
  unfold validateBulkSearchParams
  simp only [hq]
  simp [hlen]

theorem validateQueryList_first_bad :
    ∀ (good : List RawValue) (v : RawValue) (rest : List RawValue) (i : Nat),
    (∀ g ∈ good, validElem g = true) → validElem v = false →
    validateQueryList (good ++ v :: rest) i = .error (elemError (i + good.length) v) := by
  intro good
  induction good with
  | nil =>
    intro v rest i _ hv
    simp only [List.nil_append, List.length_nil, Nat.add_zero]
    cases v with
    | vStr s =>
      simp only [validateQueryList, elemError]
      by_cases h0 : (jsTrim s).length = 0
      · simp [h0]
      · have h500 : s.length > 500 := by
          unfold validElem at hv
          simp only [Bool.and_eq_false_iff] at hv
          rcases hv with hv | hv
          · simp at hv; exact absurd hv h0
          · simp at hv; omega
        simp [h0, h500]
    | vInt n => rfl
    | vNonIntNum b => rfl
    | vBool b => rfl
    | vNull => rfl
    | vArr a => rfl
    | vObj => rfl
  | cons g good' ih =>
    intro v rest i hgood hv
    have hgval : validElem g = true := hgood g (by simp)
    cases g with
    | vStr s =>
      unfold validElem at hgval
      rw [Bool.and_eq_true] at hgval
      obtain ⟨h0, h500⟩ := hgval
      have h0' : ¬ (jsTrim s).length = 0 := by simpa using h0
      have h500' : ¬ s.length > 500 := by simp at h500; omega
      show validateQueryList (RawValue.vStr s :: (good' ++ v :: rest)) i = _
      simp only [validateQueryList]
      simp only [h0', h500', if_false]
      rw [ih v rest (i + 1) (fun g hg => hgood g (by simp [hg])) hv]
      have harith : i + 1 + good'.length = i + (good'.length + 1) := by omega
      simp [harith]
    | vInt n => simp [validElem] at hgval
    | vNonIntNum b => simp [validElem] at hgval
    | vBool b => simp [validElem] at hgval
    | vNull => simp [validElem] at hgval
    | vArr a => simp [validElem] at hgval
    | vObj => simp [validElem] at hgval

/-- **C7.** A 21-element `queries` array is rejected (with the size
error) and, through the bulk handler, rejected before any provider call
(`calls = []`); a 20-element array of valid queries is accepted; and the
per-element loop applies the single-query rules, producing for the first
offending element at index `i` exactly the error `elemError i v`, whose
message carries the index. -/
theorem C7_bulk_size_bounds :
    (∀ (p : RawBulkFields) (qs : List RawValue), p.queries = some (.vArr qs) →
      qs.length = 21 →
      validateBulkSearchParams (.obj p)
        = .error ⟨"queries array cannot exceed 20 items", some "queries"⟩) ∧
    validateBulkSearchParams (.obj { queries := some (.vArr (List.replicate 20 (.vStr "q"))) })
      = .ok { queries := List.replicate 20 "q" } ∧
    (∀ (f : SearchParams → APIResponse WebSearchResponse) (rl : RateLimiter) (now : Int)
      (p : RawBulkFields) (qs : List RawValue), p.queries = some (.vArr qs) →
      qs.length = 21 → (bulkSearchHandle f rl now (.obj p)).calls = []) ∧
    (∀ (good : List RawValue) (v : RawValue) (rest : List RawValue) (i : Nat),
      (∀ g ∈ good, validElem g = true) → validElem v = false →
      validateQueryList (good ++ v :: rest) i = .error (elemError (i + good.length) v)) := by
  refine ⟨validateBulk_over20, by rfl, ?_, validateQueryList_first_bad⟩
  intro f rl now p qs hq hlen
  unfold bulkSearchHandle
  by_cases hc : (getCurrentCount rl now).2 + estimatedRequests p > 100
  · simp [hc]
  · simp [hc, validateBulk_over20 p qs hq hlen]

/-- **C7 witness.** The size clauses at a concrete 21-query input and the
element clause at a concrete offending element (`5` at index 1). -/
theorem C7_bulk_size_bounds_witness :
    validateBulkSearchParams
        (.obj { queries := some (.vArr (List.replicate 21 (.vStr "q"))) })
      = .error ⟨"queries array cannot exceed 20 items", some "queries"⟩ ∧
    (bulkSearchHandle constFalseFn ⟨[], 100, 60000⟩ 0
        (.obj { queries := some (.vArr (List.replicate 21 (.vStr "q"))) })).calls = [] ∧
    validateQueryList [.vStr "a", .vInt 5] 0 = .error (elemError 1 (.vInt 5)) := by
  refine ⟨C7_bulk_size_bounds.1 _ _ rfl (by decide),
    C7_bulk_size_bounds.2.2.1 constFalseFn ⟨[], 100, 60000⟩ 0 _ _ rfl (by decide), ?_⟩
  have h := C7_bulk_size_bounds.2.2.2 [.vStr "a"] (.vInt 5) [] 0 (by decide) (by decide)
  simpa using h

/-! ## Claim C5: recording admitted requests -/

/-- **C5 counterexample.** The claim says all three handlers record the
admitted request(s) in the rate limiter before or alongside the provider
call(s).  A bulk run that passes admission and issues one provider call
leaves the limiter's timestamp list empty: `BulkSearchHandler.handle`
never calls `recordRequest`. -/
theorem C5_counterexample :
    (bulkSearchHandle constFalseFn ⟨[], 100, 60000⟩ 0
      (.obj { queries := some (.vArr [.vStr "a"]) })).calls.length = 1 ∧
    (bulkSearchHandle constFalseFn ⟨[], 100, 60000⟩ 0
      (.obj { queries := some (.vArr [.vStr "a"]) })).limiter.requests = [] := by
  exact ⟨rfl, rfl⟩

/-- **C5 (amended).** `web_search` and `advanced_web_search` record the
admitted request (the pruned timestamp list plus `now`) before issuing
their provider call; `bulk_web_search` only consults `getCurrentCount`
and never records: its final limiter state contains no timestamp that
was not already stored. -/
theorem C5_record_before_call :
    (∀ (f : SearchParams → APIResponse WebSearchResponse) (rl : RateLimiter) (now : Int)
      (raw : RawSearchInput), (webSearchHandle f rl now raw).calls ≠ [] →
      (webSearchHandle f rl now raw).limiter.requests = pruneRequests rl now ++ [now]) ∧
    (∀ (f : SearchParams → APIResponse WebSearchResponse) (rl : RateLimiter) (now : Int)
      (raw : RawSearchInput), (advancedSearchHandle f rl now raw).calls ≠ [] →
      (advancedSearchHandle f rl now raw).limiter.requests = pruneRequests rl now ++ [now]) ∧
    (∀ (f : SearchParams → APIResponse WebSearchResponse) (rl : RateLimiter) (now : Int)
      (raw : RawBulkInput) (t : Int),
      t ∈ (bulkSearchHandle f rl now raw).limiter.requests → t ∈ rl.requests) := by
  refine ⟨?_, ?_, ?_⟩
  · intro f rl now raw h
    unfold webSearchHandle at h ⊢
    by_cases hb : (canMakeRequest rl now).2 = false
    · simp [hb] at h
    · simp only [hb, if_false] at h ⊢
      cases hv : validateSearchParams raw with
      | error e => simp [hv] at h
      | ok v =>
        simp only [hv] at h ⊢
        repeat' split
        all_goals first | rfl | contradiction
  · intro f rl now raw h
    unfold advancedSearchHandle at h ⊢
    by_cases hb : (canMakeRequest rl now).2 = false
    · simp [hb] at h
    · simp only [hb, if_false] at h ⊢
      cases hv : validateSearchParams raw with
      | error e => simp [hv] at h
      | ok v =>
        simp only [hv] at h ⊢
        repeat' split
        all_goals first | rfl | contradiction
  · intro f rl now raw t ht
    have hlim : (bulkSearchHandle f rl now raw).limiter.requests = rl.requests ∨
        (bulkSearchHandle f rl now raw).limiter.requests = pruneRequests rl now := by
      cases raw with
      | jsNull => left; rfl
      | notObj =>
        right
        unfold bulkSearchHandle
        simp only [getCurrentCount]
        split <;> rfl
      | obj p =>
        right
        unfold bulkSearchHandle
        simp only [getCurrentCount]
        repeat' split
        all_goals rfl
    rcases hlim with hl | hl
    · rw [hl] at ht; exact ht
    · rw [hl] at ht
      exact (List.mem_filter.mp ht).1

/-- **C5 witness.** The web-search clause at a concrete admitted input:
the final limiter state is the pruned list plus the new timestamp. -/
theorem C5_record_before_call_witness :
    (webSearchHandle constFalseFn ⟨[], 100, 60000⟩ 5
      (.obj { query := some (.vStr "hello") })).limiter.requests
      = pruneRequests ⟨[], 100, 60000⟩ 5 ++ [5] := by
  exact C5_record_before_call.1 constFalseFn ⟨[], 100, 60000⟩ 5
    (.obj { query := some (.vStr "hello") }) (by decide)

/-! ## Claim C10: sanitization can empty a validated query -/

/-- A query consisting only of the stripped characters `< > " '`. -/
def rawAngleQuery : RawSearchInput := .obj { query := some (.vStr "<>\"'") }

/-- **C10.** The input whose query is `<>"'` passes `validateSearchParams`
(non-empty, within length bounds), yet `sanitizeQuery` maps it to the
empty string; the single-search handler, which sanitizes after
validating, records the request and issues a provider call whose query
text is empty — validated non-emptiness is not preserved through
sanitization. -/
theorem C10_sanitizer_empties_validated_query :
    validateSearchParams rawAngleQuery = .ok { query := "<>\"'" } ∧
    sanitizeQuery "<>\"'" = "" ∧
    (webSearchHandle constFalseFn ⟨[], 100, 60000⟩ 0 rawAngleQuery).calls
      = [{ query := "" }] ∧
    (webSearchHandle constFalseFn ⟨[], 100, 60000⟩ 0 rawAngleQuery).limiter.requests
      = [0] := by
  exact ⟨rfl, rfl, rfl, rfl⟩

/-! ## Claim C9: idempotence of validation -/

/-- Inject a validated `SearchParams` record back into a raw argument
object (the round trip of the idempotence property). -/
def searchParamsToRaw (v : SearchParams) : RawSearchInput :=
  .obj { query := some (.vStr v.query),
         max_results := Option.map RawValue.vInt v.max_results,
         region := Option.map RawValue.vStr v.region,
         safe_search := Option.map RawValue.vBool v.safe_search,
         site_restrict := Option.map RawValue.vStr v.site_restrict,
         file_type := Option.map RawValue.vStr v.file_type,
         date_range := Option.map RawValue.vStr v.date_range }

/-- Inject a validated `BulkSearchParams` record back into a raw
argument object. -/
def bulkParamsToRaw (v : BulkSearchParams) : RawBulkInput :=
  .obj { queries := some (.vArr (v.queries.map RawValue.vStr)),
         max_results_per_query := Option.map RawValue.vInt v.max_results_per_query,
         region := Option.map RawValue.vStr v.region,
         safe_search := Option.map RawValue.vBool v.safe_search }

theorem validateIntField_roundtrip (a b c : String) (lo hi : Int) (v : Option RawValue)
    (mr : Option Int) (h : validateIntField a b c lo hi v = .ok mr) :
    validateIntField a b c lo hi (Option.map RawValue.vInt mr) = .ok mr := by
  match v with
  | none => cases h; rfl
  | some (.vInt n) =>
    unfold validateIntField at h
    by_cases hr : n < lo ∨ n > hi
    · simp [hr] at h
    · simp only [hr, if_false] at h
      cases h
      unfold validateIntField
      simp [hr]
  | some (.vStr s) => cases h
  | some (.vNonIntNum b') => cases h
  | some (.vBool b') => cases h
  | some .vNull => cases h
  | some (.vArr a') => cases h
  | some .vObj => cases h

theorem validateRegionField_roundtrip (v : Option RawValue) (rg : Option String)
    (h : validateRegionField v = .ok rg) :
    validateRegionField (Option.map RawValue.vStr rg) = .ok rg := by
  match v with
  | none => cases h; rfl
  | some (.vStr s) =>
    unfold validateRegionField at h
    by_cases hp : regionPattern s = true
    · simp only [hp, if_true] at h
      cases h
      have hid := jsToLower_of_regionPattern hp
      show validateRegionField (some (.vStr (jsToLower s))) = _
      rw [hid]
      unfold validateRegionField
      simp [hp, hid]
    · simp [hp] at h
  | some (.vInt n) => cases h
  | some (.vNonIntNum b') => cases h
  | some (.vBool b') => cases h
  | some .vNull => cases h
  | some (.vArr a') => cases h
  | some .vObj => cases h

theorem validateBoolField_roundtrip (v : Option RawValue) (ss : Option Bool)
    (h : validateBoolField v = .ok ss) :
    validateBoolField (Option.map RawValue.vBool ss) = .ok ss := by
  match v with
  | none => cases h; rfl
  | some (.vBool b') => cases h; rfl
  | some (.vStr s) => cases h
  | some (.vInt n) => cases h
  | some (.vNonIntNum b') => cases h
  | some .vNull => cases h
  | some (.vArr a') => cases h
  | some .vObj => cases h

theorem validateSiteRestrict_roundtrip (v : Option RawValue) (sr : Option String)
    (h : validateSiteRestrict v = .ok sr) :
    validateSiteRestrict (Option.map RawValue.vStr sr) = .ok sr := by
  match v with
  | none => cases h; rfl
  | some (.vStr s) =>
    simp only [validateSiteRestrict] at h
    by_cases h0 : (jsTrim s).length = 0
    · simp [h0] at h
    · simp only [h0, if_false] at h
      cases h
      show validateSiteRestrict (some (.vStr (jsTrim s))) = _
      simp only [validateSiteRestrict]
      rw [jsTrim_idem]
      simp [h0]
  | some (.vInt n) => cases h
  | some (.vNonIntNum b') => cases h
  | some (.vBool b') => cases h
  | some .vNull => cases h
  | some (.vArr a') => cases h
  | some .vObj => cases h

theorem allowedTypes_toLower_self : ∀ t ∈ allowedTypes, jsToLower t = t := by decide

theorem validateFileType_roundtrip (v : Option RawValue) (ft : Option String)
    (h : validateFileType v = .ok ft) :
    validateFileType (Option.map RawValue.vStr ft) = .ok ft := by
  match v with
  | none => cases h; rfl
  | some (.vStr s) =>
    simp only [validateFileType] at h
    by_cases hm : jsToLower s ∈ allowedTypes
    · rw [if_pos hm] at h
      cases h
      have hself : jsToLower (jsToLower s) = jsToLower s :=
        allowedTypes_toLower_self _ hm
      show validateFileType (some (.vStr (jsToLower s))) = _
      simp only [validateFileType]
      rw [hself, if_pos hm]
    · rw [if_neg hm] at h
      cases h
  | some (.vInt n) => cases h
  | some (.vNonIntNum b') => cases h
  | some (.vBool b') => cases h
  | some .vNull => cases h
  | some (.vArr a') => cases h
  | some .vObj => cases h

theorem validateDateRange_roundtrip (v : Option RawValue) (dr : Option String)
    (h : validateDateRange v = .ok dr) :
    validateDateRange (Option.map RawValue.vStr dr) = .ok dr := by
  match v with
  | none => cases h; rfl
  | some (.vStr s) =>
    simp only [validateDateRange] at h
    by_cases hm : s ∈ allowedRanges
    · rw [if_pos hm] at h
      cases h
      show validateDateRange (some (.vStr s)) = _
      simp only [validateDateRange]
      rw [if_pos hm]
    · rw [if_neg hm] at h
      cases h
  | some (.vInt n) => cases h
  | some (.vNonIntNum b') => cases h
  | some (.vBool b') => cases h
  | some .vNull => cases h
  | some (.vArr a') => cases h
  | some .vObj => cases h

theorem validateQueryList_ok_props : ∀ (qs : List RawValue) (i : Nat) (out : List String),
    validateQueryList qs i = .ok out →
    out.length = qs.length ∧ ∀ s ∈ out, jsTrim s = s ∧ s.length ≠ 0 ∧ s.length ≤ 500 := by
  intro qs
  induction qs with
  | nil =>
    intro i out h
    cases h
    exact ⟨rfl, by intro s hs; cases hs⟩
  | cons v rest ih =>
    intro i out h
    cases v with
    | vStr s =>
      simp only [validateQueryList] at h
      by_cases h0 : (jsTrim s).length = 0
      · simp [h0] at h
      · by_cases h5 : s.length > 500
        · simp [h0, h5] at h
        · simp only [h0, h5, if_false] at h
          cases hrec : validateQueryList rest (i + 1) with
          | error e => simp [hrec] at h
          | ok outTail =>
            simp only [hrec] at h
            cases h
            obtain ⟨hlen, helems⟩ := ih (i + 1) outTail hrec
            refine ⟨by simp [hlen], ?_⟩
            intro t ht
            rcases List.mem_cons.mp ht with hh | hh
            · subst hh
              refine ⟨jsTrim_idem s, h0, ?_⟩
              have := jsTrim_length_le s
              omega
            · exact helems t hh
    | vInt n =>
      simp only [validateQueryList] at h
      cases h
    | vNonIntNum b' =>
      simp only [validateQueryList] at h
      cases h
    | vBool b' =>
      simp only [validateQueryList] at h
      cases h
    | vNull =>
      simp only [validateQueryList] at h
      cases h
    | vArr a' =>
      simp only [validateQueryList] at h
      cases h
    | vObj =>
      simp only [validateQueryList] at h
      cases h

theorem validateQueryList_self : ∀ (l : List String) (i : Nat),
    (∀ s ∈ l, jsTrim s = s ∧ s.length ≠ 0 ∧ s.length ≤ 500) →
    validateQueryList (l.map RawValue.vStr) i = .ok l := by
  intro l
  induction l with
  | nil => intro i _; rfl
  | cons t rest ih =>
    intro i hall
    obtain ⟨ht1, ht2, ht3⟩ := hall t (by simp)
    show validateQueryList (RawValue.vStr t :: rest.map RawValue.vStr) i = _
    simp only [validateQueryList]
    have h0 : ¬ (jsTrim t).length = 0 := by rw [ht1]; exact ht2
    have h5 : ¬ t.length > 500 := by omega
    simp only [h0, h5, if_false]
    rw [ih (i + 1) (fun s hs => hall s (by simp [hs]))]
    simp [ht1]

/-- **C9.** Validation is idempotent: feeding the normalized record
returned by `validateSearchParams` (resp. `validateBulkSearchParams`)
back into the same validator succeeds and returns the identical record. -/
theorem C9_validation_idempotent :
    (∀ (raw : RawSearchInput) (v : SearchParams),
      validateSearchParams raw = .ok v →
      validateSearchParams (searchParamsToRaw v) = .ok v) ∧
    (∀ (raw : RawBulkInput) (v : BulkSearchParams),
      validateBulkSearchParams raw = .ok v →
      validateBulkSearchParams (bulkParamsToRaw v) = .ok v) := by
  constructor
  · intro raw v h
    cases raw with
    | notObj => cases h
    | obj p =>
      simp only [validateSearchParams] at h
      cases hq : getQuery p.query with
      | error e => simp [hq] at h
      | ok q =>
        simp only [hq] at h
        by_cases h1 : (jsTrim q).length = 0
        · simp [h1] at h
        · by_cases h2 : q.length > 500
          · simp [h1, h2] at h
          · simp only [h1, h2, if_false] at h
            cases hmr : validateIntField "max_results" "max_results must be an integer"
                "max_results must be between 1 and 300" 1 300 p.max_results with
            | error e => simp [hmr] at h
            | ok mr =>
              simp only [hmr] at h
              cases hrg : validateRegionField p.region with
              | error e => simp [hrg] at h
              | ok rg =>
                simp only [hrg] at h
                cases hss : validateBoolField p.safe_search with
                | error e => simp [hss] at h
                | ok ss =>
                  simp only [hss] at h
                  cases hsr : validateSiteRestrict p.site_restrict with
                  | error e => simp [hsr] at h
                  | ok sr =>
                    simp only [hsr] at h
                    cases hft : validateFileType p.file_type with
                    | error e => simp [hft] at h
                    | ok ft =>
                      simp only [hft] at h
                      cases hdr : validateDateRange p.date_range with
                      | error e => simp [hdr] at h
                      | ok dr =>
                        simp only [hdr] at h
                        cases h
                        have hne : jsTrim q ≠ "" := by
                          intro he
                          apply h1
                          rw [he]
                          rfl
                        have hgq : getQuery (some (.vStr (jsTrim q))) = .ok (jsTrim q) := by
                          simp only [getQuery]
                          rw [if_neg hne]
                        have h1' : ¬ (jsTrim (jsTrim q)).length = 0 := by
                          rw [jsTrim_idem]; exact h1
                        have h2' : ¬ (jsTrim q).length > 500 := by
                          have := jsTrim_length_le q
                          omega
                        unfold searchParamsToRaw
                        simp only [validateSearchParams]
                        simp only [hgq, h1', h2', if_false,
                          validateIntField_roundtrip _ _ _ _ _ _ _ hmr,
                          validateRegionField_roundtrip _ _ hrg,
                          validateBoolField_roundtrip _ _ hss,
                          validateSiteRestrict_roundtrip _ _ hsr,
                          validateFileType_roundtrip _ _ hft,
                          validateDateRange_roundtrip _ _ hdr]
                        simp [jsTrim_idem]
  · intro raw v h
    cases raw with
    | jsNull => cases h
    | notObj => cases h
    | obj p =>
      simp only [validateBulkSearchParams] at h
      cases hqs : p.queries with
      | none => simp [hqs] at h
      | some qv =>
        cases qv with
        | vArr qs =>
          simp only [hqs] at h
          by_cases he : qs.length = 0
          · simp [he] at h
          · by_cases h20 : qs.length > 20
            · simp [he, h20] at h
            · simp only [he, h20, if_false] at h
              cases hql : validateQueryList qs 0 with
              | error e => simp [hql] at h
              | ok vqs =>
                simp only [hql] at h
                cases hmr : validateIntField "max_results_per_query"
                    "max_results_per_query must be an integer"
                    "max_results_per_query must be between 1 and 50" 1 50
                    p.max_results_per_query with
                | error e => simp [hmr] at h
                | ok mr =>
                  simp only [hmr] at h
                  cases hrg : validateRegionField p.region with
                  | error e => simp [hrg] at h
                  | ok rg =>
                    simp only [hrg] at h
                    cases hss : validateBoolField p.safe_search with
                    | error e => simp [hss] at h
                    | ok ss =>
                      simp only [hss] at h
                      cases h
                      obtain ⟨hlen, helems⟩ := validateQueryList_ok_props qs 0 vqs hql
                      have hlen0 : ¬ (vqs.map RawValue.vStr).length = 0 := by
                        rw [List.length_map, hlen]
                        exact he
                      have hlen20 : ¬ (vqs.map RawValue.vStr).length > 20 := by
                        rw [List.length_map, hlen]
                        exact h20
                      unfold bulkParamsToRaw
                      simp only [validateBulkSearchParams]
                      simp only [hlen0, hlen20, if_false,
                        validateQueryList_self vqs 0 helems,
                        validateIntField_roundtrip _ _ _ _ _ _ _ hmr,
                        validateRegionField_roundtrip _ _ hrg,
                        validateBoolField_roundtrip _ _ hss]
        | vStr s => simp [hqs] at h
        | vInt n => simp [hqs] at h
        | vNonIntNum b' => simp [hqs] at h
        | vBool b' => simp [hqs] at h
        | vNull => simp [hqs] at h
        | vObj => simp [hqs] at h

/-- **C9 witness.** The round trip at concrete accepted inputs: a search
record validated from `"  hi  "` (normalized to `"hi"`) re-validates to
itself, and likewise a bulk record with queries `["a", "b"]`. -/
theorem C9_validation_idempotent_witness :
    validateSearchParams (searchParamsToRaw { query := "hi", max_results := some 5 })
      = .ok { query := "hi", max_results := some 5 } ∧
    validateBulkSearchParams (bulkParamsToRaw { queries := ["a", "b"] })
      = .ok { queries := ["a", "b"] } := by
  refine ⟨C9_validation_idempotent.1
      (.obj { query := some (.vStr "  hi  "), max_results := some (.vInt 5) }) _ (by rfl),
    C9_validation_idempotent.2
      (.obj { queries := some (.vArr [.vStr "a", .vStr "b"]) }) _ (by rfl)⟩
